import Mathlib

set_option maxHeartbeats 1000000

/-!
Model of `scripts/build_nuitka.py`, a build-automation script that resolves
a build configuration (application name, GUI framework, plugins, data
directories) and assembles the argument list for an external compiler
invocation.  Filesystem facts (existence of the entry file, of directories),
the host platform string, the interpreter path, availability of the external
compiler and the child process exit code are passed in as explicit
parameters; everything else is translated directly from the source.
-/

/-- Boolean test that the first character list starts with the second. -/
def listStartsWith : List Char → List Char → Bool
  | _, [] => true
  | [], _ :: _ => false
  | a :: as, b :: bs => a == b && listStartsWith as bs

/-- Boolean substring test on character lists, modelling Python `pat in s`. -/
def listHasSub : List Char → List Char → Bool
  | [], pat => pat.isEmpty
  | a :: rest, pat => listStartsWith (a :: rest) pat || listHasSub rest pat

/-- Python substring containment `pat in s` on strings. -/
def strContains (s pat : String) : Bool := listHasSub s.data pat.data

/-- Split a character list at `/` separators (accumulator holds the current
component reversed), modelling the path-component split used by `pathlib`. -/
def splitSlashAux : List Char → List Char → List (List Char)
  | cur, [] => [cur.reverse]
  | cur, c :: cs => if c == '/' then cur.reverse :: splitSlashAux [] cs else splitSlashAux (c :: cur) cs

/-- Final path component, modelling `pathlib.Path(p).name` for the relevant
inputs: empty and `.` components are dropped, the last remaining component is
the name (empty if none remain). -/
def pathName (p : String) : String :=
  (((splitSlashAux [] p.data).map String.mk).filter (fun s => s != "" && s != ".")).getLastD ""

/-- Index of the last `.` in a character list, if any. -/
def rfindDotIdx : List Char → Option Nat
  | [] => none
  | c :: cs =>
    match rfindDotIdx cs with
    | some i => some (i + 1)
    | none => if c == '.' then some 0 else none

/-- Stem of a file name, modelling `pathlib`: drop the final extension when
the last dot sits strictly inside the name (not at position 0, not last). -/
def stemOfName (n : String) : String :=
  match rfindDotIdx n.data with
  | some i => if 0 < i && i + 1 < n.data.length then String.mk (n.data.take i) else n
  | none => n

/-- Modelling `pathlib.Path(p).stem`. -/
def pathStem (p : String) : String := stemOfName (pathName p)

/-- ASCII lowercasing of a string, modelling Python `str.lower` on the ASCII
framework identifiers it is applied to. -/
def strLower (s : String) : String := String.mk (s.data.map Char.toLower)

/-- The static framework-to-plugins table `NuitkaBuildConfig.FRAMEWORK_PLUGINS`. -/
def FRAMEWORK_PLUGINS : List (String × List String) :=
  [("pyside6", ["pyside6"]),
   ("pyqt6", ["pyqt6"]),
   ("pyqt5", ["pyqt5"]),
   ("qt", ["pyside6"]),
   ("ctk", ["tk-inter"]),
   ("tkinter", ["tk-inter"]),
   ("flet", [])]

/-- `NuitkaBuildConfig.get_plugins`: dictionary lookup with default `[]`. -/
def get_plugins (framework : String) : List String :=
  (FRAMEWORK_PLUGINS.lookup framework).getD []

/-- The fixed candidate list `common_dirs` in `get_data_dirs`. -/
def common_dirs : List String :=
  ["assets", "resources", "static", "images", "icons", "fonts", "themes"]

/-- The accumulation loop of `get_data_dirs` (`found.append(d)` for each
candidate that is a directory). -/
def dataDirLoop (isDir : String → Bool) : List String → List String → List String
  | found, [] => found
  | found, d :: ds => dataDirLoop isDir (if isDir d then found ++ [d] else found) ds

/-- `NuitkaBuildConfig.get_data_dirs`, parametrised by the directory-existence
test `Path(d).is_dir()`. -/
def get_data_dirs (isDir : String → Bool) : List String :=
  dataDirLoop isDir [] common_dirs

/-- `NuitkaBuildConfig._detect_framework`, parametrised by the result of
`self.main_file.read_text(...)`: `none` models a read failure (the
`except Exception` branch), `some c` a successful read of content `c`. -/
def detect_framework (content : Option String) : String :=
  match content with
  | none => "pyside6"
  | some c =>
    if strContains c "PySide6" || strContains c "pyside6" then "pyside6"
    else if strContains c "PyQt6" then "pyqt6"
    else if strContains c "PyQt5" then "pyqt5"
    else if strContains c "customtkinter" || strContains c "ctk" then "ctk"
    else if strContains c "flet" then "flet"
    else if strContains c "tkinter" then "tkinter"
    else "pyside6"

/-- `NuitkaBuildConfig._detect_app_name`, parametrised by `Path.cwd().name`. -/
def detect_app_name (main_file cwdName : String) : String :=
  if pathStem main_file ≠ "main" then pathStem main_file else cwdName

/-- The parsed command-line arguments (`argparse` result).  `name`, `icon`
and `framework` default to `None`; `main` defaults to `"main.py"`; the three
boolean switches default to `false`. -/
structure BuildArgs where
  name : Option String
  main : String
  icon : Option String
  console : Bool
  onefile : Bool
  clean : Bool
  framework : Option String

/-- The resolved configuration record built by `NuitkaBuildConfig.__init__`. -/
structure NuitkaBuildConfig where
  main_file : String
  app_name : String
  icon : Option String
  console : Bool
  onefile : Bool
  clean : Bool
  framework : String
  output_dir : String
  build_dir : String

/-- `args.name or self._detect_app_name()`: Python `or` falls through on a
falsy value, so both `None` and the empty string trigger detection. -/
def resolve_app_name (name : Option String) (main_file cwdName : String) : String :=
  match name with
  | some n => if n = "" then detect_app_name main_file cwdName else n
  | none => detect_app_name main_file cwdName

/-- `args.framework.lower() if args.framework else self._detect_framework()`. -/
def resolve_framework (fw : Option String) (content : Option String) : String :=
  match fw with
  | some f => strLower f
  | none => detect_framework content

/-- `NuitkaBuildConfig.__init__`, parametrised by the working-directory name
and the entry file's readable content. -/
def mkConfig (args : BuildArgs) (cwdName : String) (mainContent : Option String) : NuitkaBuildConfig :=
  { main_file := args.main
    app_name := resolve_app_name args.name args.main cwdName
    icon := args.icon
    console := args.console
    onefile := args.onefile
    clean := args.clean
    framework := resolve_framework args.framework mainContent
    output_dir := "dist"
    build_dir := "build" }

/-- The command-assembly part of `run_build`: the sequence of `append` and
`extend` calls building `cmd`, parametrised by `sys.platform`,
`sys.executable` and the directory-existence test. -/
def build_cmd (c : NuitkaBuildConfig) (platform pyExe : String) (isDir : String → Bool) : List String :=
  let cmd := [pyExe, "-m", "nuitka", "--standalone", "--output-dir=" ++ c.output_dir]
  let cmd := if c.onefile then cmd ++ ["--onefile"] else cmd
  let cmd :=
    if platform = "win32" ∧ c.console = false then cmd ++ ["--windows-disable-console"]
    else if platform = "darwin" ∧ c.console = false then cmd ++ ["--macos-disable-console"]
    else cmd
  let cmd := cmd ++ (get_plugins c.framework).map (fun p => "--enable-plugin=" ++ p)
  let cmd := cmd ++ (get_data_dirs isDir).map (fun d => "--include-data-dir=" ++ (d ++ "=" ++ d))
  let cmd :=
    match c.icon with
    | some ic =>
      if ic = "" then cmd
      else if platform = "win32" then cmd ++ ["--windows-icon-from-ico=" ++ ic]
      else if platform = "darwin" then cmd ++ ["--macos-app-icon=" ++ ic]
      else cmd
    | none => cmd
  let cmd :=
    if platform = "win32" then
      cmd ++ ["--product-name=" ++ c.app_name, "--file-description=" ++ c.app_name,
              "--file-version=1.0.0.0", "--product-version=1.0.0.0"]
    else cmd
  let cmd :=
    if platform = "darwin" then
      cmd ++ ["--macos-create-app-bundle", "--macos-app-name=" ++ c.app_name]
    else cmd
  let cmd := cmd ++ ["--assume-yes-for-downloads", "--remove-output"]
  cmd ++ [c.main_file]

/-- Python `" ".join(cmd)`. -/
def joinCmd : List String → String
  | [] => ""
  | [x] => x
  | x :: y :: xs => x ++ " " ++ joinCmd (y :: xs)

/-- Observable outcome of one `run_build` invocation: the process exit code,
the command handed to `subprocess.run` (`none` when no subprocess work was
attempted), the directories removed by the clean step, and the lines printed. -/
structure BuildResult where
  exitCode : Nat
  invoked : Option (List String)
  removed : List String
  messages : List String

/-- `run_build`: validation, optional clean step, command assembly, and the
subprocess invocation with its three outcomes.  `mainExists` models
`config.main_file.exists()`, `dirExists` models `d.exists()` for the
output/build directories, `nuitkaFound` is false when `subprocess.run`
raises `FileNotFoundError`, and `childExit` is the child's exit status
(`CalledProcessError` is raised exactly when it is nonzero). -/
def run_build (c : NuitkaBuildConfig) (mainExists : Bool) (dirExists : String → Bool)
    (isDir : String → Bool) (platform pyExe : String) (nuitkaFound : Bool)
    (childExit : Nat) : BuildResult :=
  if mainExists = false then
    { exitCode := 1, invoked := none, removed := [],
      messages := ["\x27" ++ c.main_file ++ "\x27 not found!"] }
  else
    let cleanMsgs := if c.clean then ["Cleaning previous build artifacts..."] else []
    let removed := if c.clean then [c.output_dir, c.build_dir].filter (fun d => dirExists d) else []
    let cmd := build_cmd c platform pyExe isDir
    let statusMsgs :=
      ["Building \x27" ++ c.app_name ++ "\x27 with Nuitka...",
       "Framework: " ++ c.framework,
       "Output: " ++ c.output_dir,
       "Command: " ++ joinCmd cmd]
    let outcome : Nat × String :=
      if nuitkaFound = false then (1, "Nuitka not found! Install with: pip install nuitka")
      else if childExit = 0 then (0, "Build successful! Output in \x27" ++ c.output_dir ++ "\x27")
      else (childExit, "Build failed with exit code " ++ toString childExit)
    { exitCode := outcome.1, invoked := some cmd, removed := removed,
      messages := cleanMsgs ++ statusMsgs ++ [outcome.2] }

/-- Whether a directory still exists after the invocation: it existed before
and was not removed by the clean step. -/
def dirExistsAfter (dirExists : String → Bool) (r : BuildResult) (d : String) : Bool :=
  dirExists d && !(r.removed.contains d)

/-- Step 1 of the specified assembly order: interpreter invocation and the
fixed baseline flags (standalone mode, output directory). -/
def baselineFlags (c : NuitkaBuildConfig) (pyExe : String) : List String :=
  [pyExe, "-m", "nuitka", "--standalone", "--output-dir=" ++ c.output_dir]

/-- Step 2: the single-file flag when requested. -/
def onefileFlags (c : NuitkaBuildConfig) : List String :=
  if c.onefile then ["--onefile"] else []

/-- Step 3: the platform console-disable flag. -/
def consoleFlags (c : NuitkaBuildConfig) (platform : String) : List String :=
  if platform = "win32" ∧ c.console = false then ["--windows-disable-console"]
  else if platform = "darwin" ∧ c.console = false then ["--macos-disable-console"]
  else []

/-- Step 4: one plugin-enabling flag per resolved plugin. -/
def pluginFlags (c : NuitkaBuildConfig) : List String :=
  (get_plugins c.framework).map (fun p => "--enable-plugin=" ++ p)

/-- Step 5: one data-inclusion flag per discovered directory, mapping the
directory to itself. -/
def dataDirFlags (isDir : String → Bool) : List String :=
  (get_data_dirs isDir).map (fun d => "--include-data-dir=" ++ (d ++ "=" ++ d))

/-- Step 6: the platform icon flag when an icon was supplied. -/
def iconFlags (c : NuitkaBuildConfig) (platform : String) : List String :=
  match c.icon with
  | some ic =>
    if ic = "" then []
    else if platform = "win32" then ["--windows-icon-from-ico=" ++ ic]
    else if platform = "darwin" then ["--macos-app-icon=" ++ ic]
    else []
  | none => []

/-- Step 7: the Windows product-metadata flags. -/
def winMetaFlags (c : NuitkaBuildConfig) (platform : String) : List String :=
  if platform = "win32" then
    ["--product-name=" ++ c.app_name, "--file-description=" ++ c.app_name,
     "--file-version=1.0.0.0", "--product-version=1.0.0.0"]
  else []

/-- Step 8: the macOS bundle flags. -/
def macBundleFlags (c : NuitkaBuildConfig) (platform : String) : List String :=
  if platform = "darwin" then
    ["--macos-create-app-bundle", "--macos-app-name=" ++ c.app_name]
  else []

/-- Step 9: the fixed trailing optimization flags. -/
def trailingFlags : List String :=
  ["--assume-yes-for-downloads", "--remove-output"]

/-- The assembled command decomposes as the concatenation of the ten
specified steps, in order, ending with the entry-point path. -/
theorem build_cmd_parts (c : NuitkaBuildConfig) (platform pyExe : String) (isDir : String → Bool) :
    build_cmd c platform pyExe isDir =
      baselineFlags c pyExe ++ onefileFlags c ++ consoleFlags c platform ++
      pluginFlags c ++ dataDirFlags isDir ++ iconFlags c platform ++
      winMetaFlags c platform ++ macBundleFlags c platform ++ trailingFlags ++
      [c.main_file] := by
  unfold build_cmd baselineFlags onefileFlags consoleFlags pluginFlags dataDirFlags
    iconFlags winMetaFlags macBundleFlags trailingFlags
  cases c.icon with
  | none => split_ifs <;> simp_all [List.append_assoc]
  | some ic =>
    rcases eq_or_ne ic "" with hic | hic <;>
      split_ifs <;> simp_all [List.append_assoc]

/-- A list starts with itself extended by anything. -/
theorem listStartsWith_append (a b : List Char) : listStartsWith (a ++ b) a = true := by
  induction a with
  | nil => cases b <;> rfl
  | cons x xs ih => simp [listStartsWith, ih]

/-- String append acts as append on the underlying character lists. -/
theorem strData_append (s t : String) : (s ++ t).data = s.data ++ t.data := by
  cases s; cases t; rfl

/-- A string that does not start with `pre` differs from every `pre ++ x`. -/
theorem ne_append_of_mismatch (pre x f : String)
    (h : listStartsWith f.data pre.data = false) : f ≠ pre ++ x := by
  intro heq
  have h2 : listStartsWith (pre ++ x).data pre.data = true := by
    rw [strData_append]; exact listStartsWith_append _ _
  rw [← heq, h] at h2
  exact Bool.noConfusion h2

/-- A string that does not start with `pre` is not among prefixed flags. -/
theorem not_mem_map_append (pre : String) (g : String → String) (f : String) (l : List String)
    (h : listStartsWith f.data pre.data = false) : f ∉ l.map (fun x => pre ++ g x) := by
  intro hm
  obtain ⟨x, _, hfx⟩ := List.mem_map.mp hm
  exact ne_append_of_mismatch pre (g x) f h hfx.symm

/-- The accumulation loop of `get_data_dirs` computes a filter. -/
theorem dataDirLoop_eq_filter (isDir : String → Bool) (l : List String) :
    ∀ found, dataDirLoop isDir found l = found ++ l.filter isDir := by
  induction l with
  | nil => intro found; simp [dataDirLoop]
  | cons d ds ih =>
    intro found
    by_cases h : isDir d = true <;>
      simp [dataDirLoop, h, ih, List.filter_cons]

/-- `get_data_dirs` is the filter of the fixed candidate list. -/
theorem get_data_dirs_eq_filter (isDir : String → Bool) :
    get_data_dirs isDir = common_dirs.filter isDir := by
  rw [get_data_dirs, dataDirLoop_eq_filter]; rfl

/-- Membership in the baseline block. -/
theorem not_mem_baseline (c : NuitkaBuildConfig) (pyExe f : String)
    (h0 : f ≠ pyExe) (h1 : f ≠ "-m") (h2 : f ≠ "nuitka") (h3 : f ≠ "--standalone")
    (h4 : listStartsWith f.data "--output-dir=".data = false) :
    f ∉ baselineFlags c pyExe := by
  intro hm
  simp only [baselineFlags, List.mem_cons, List.not_mem_nil, or_false] at hm
  rcases hm with h | h | h | h | h
  · exact h0 h
  · exact h1 h
  · exact h2 h
  · exact h3 h
  · exact ne_append_of_mismatch "--output-dir=" c.output_dir f h4 h

/-- Membership in the single-file block. -/
theorem not_mem_onefile (c : NuitkaBuildConfig) (f : String) (h : f ≠ "--onefile") :
    f ∉ onefileFlags c := by
  unfold onefileFlags; split <;> simp [h]

/-- The console block is empty away from the two recognised platforms. -/
theorem console_other_empty (c : NuitkaBuildConfig) (platform : String)
    (hw : platform ≠ "win32") (hd : platform ≠ "darwin") :
    consoleFlags c platform = [] := by
  unfold consoleFlags
  split_ifs with a b
  · exact absurd a.1 hw
  · exact absurd b.1 hd
  · rfl

/-- Membership in the plugin block. -/
theorem not_mem_plugins (c : NuitkaBuildConfig) (f : String)
    (h : listStartsWith f.data "--enable-plugin=".data = false) :
    f ∉ pluginFlags c := by
  have := not_mem_map_append "--enable-plugin=" (fun x => x) f (get_plugins c.framework) h
  simpa [pluginFlags] using this

/-- Membership in the data-directory block. -/
theorem not_mem_data (isDir : String → Bool) (f : String)
    (h : listStartsWith f.data "--include-data-dir=".data = false) :
    f ∉ dataDirFlags isDir := by
  have := not_mem_map_append "--include-data-dir=" (fun d => d ++ "=" ++ d) f (get_data_dirs isDir) h
  simpa [dataDirFlags] using this

/-- Membership in the icon block. -/
theorem not_mem_icon (c : NuitkaBuildConfig) (platform f : String)
    (h1 : listStartsWith f.data "--windows-icon-from-ico=".data = false)
    (h2 : listStartsWith f.data "--macos-app-icon=".data = false) :
    f ∉ iconFlags c platform := by
  unfold iconFlags
  cases c.icon with
  | none => simp
  | some ic =>
    dsimp only
    rcases eq_or_ne ic "" with hic | hic
    · simp [hic]
    · rw [if_neg hic]
      split_ifs
      · simp only [List.mem_singleton]
        exact ne_append_of_mismatch "--windows-icon-from-ico=" ic f h1
      · simp only [List.mem_singleton]
        exact ne_append_of_mismatch "--macos-app-icon=" ic f h2
      · simp

/-- Membership in the Windows metadata block. -/
theorem not_mem_winmeta (c : NuitkaBuildConfig) (platform f : String)
    (h1 : listStartsWith f.data "--product-name=".data = false)
    (h2 : listStartsWith f.data "--file-description=".data = false)
    (h3 : f ≠ "--file-version=1.0.0.0") (h4 : f ≠ "--product-version=1.0.0.0") :
    f ∉ winMetaFlags c platform := by
  unfold winMetaFlags
  split_ifs
  · intro hm
    simp only [List.mem_cons, List.not_mem_nil, or_false] at hm
    rcases hm with h | h | h | h
    · exact ne_append_of_mismatch "--product-name=" c.app_name f h1 h
    · exact ne_append_of_mismatch "--file-description=" c.app_name f h2 h
    · exact h3 h
    · exact h4 h
  · simp

/-- Membership in the macOS bundle block. -/
theorem not_mem_macbundle (c : NuitkaBuildConfig) (platform f : String)
    (h1 : f ≠ "--macos-create-app-bundle")
    (h2 : listStartsWith f.data "--macos-app-name=".data = false) :
    f ∉ macBundleFlags c platform := by
  unfold macBundleFlags
  split_ifs
  · intro hm
    simp only [List.mem_cons, List.not_mem_nil, or_false] at hm
    rcases hm with h | h
    · exact h1 h
    · exact ne_append_of_mismatch "--macos-app-name=" c.app_name f h2 h
  · simp

/-- Membership in the trailing block. -/
theorem not_mem_trailing (f : String)
    (h1 : f ≠ "--assume-yes-for-downloads") (h2 : f ≠ "--remove-output") :
    f ∉ trailingFlags := by
  simp [trailingFlags, h1, h2]

/-- With a non-pathological interpreter path and entry path, the Windows
console flag occurs in the assembled command exactly when the console block
produces it. -/
theorem windows_console_mem_iff (c : NuitkaBuildConfig) (platform pyExe : String)
    (isDir : String → Bool)
    (hpy : pyExe ≠ "--windows-disable-console")
    (hmf : c.main_file ≠ "--windows-disable-console") :
    ("--windows-disable-console" ∈ build_cmd c platform pyExe isDir ↔
      "--windows-disable-console" ∈ consoleFlags c platform) := by
  have hb := not_mem_baseline c pyExe "--windows-disable-console"
    (Ne.symm hpy) (by decide) (by decide) (by decide) (by decide)
  have h1 := not_mem_onefile c "--windows-disable-console" (by decide)
  have h3 := not_mem_plugins c "--windows-disable-console" (by decide)
  have h4 := not_mem_data isDir "--windows-disable-console" (by decide)
  have h5 := not_mem_icon c platform "--windows-disable-console" (by decide) (by decide)
  have h6 := not_mem_winmeta c platform "--windows-disable-console"
    (by decide) (by decide) (by decide) (by decide)
  have h7 := not_mem_macbundle c platform "--windows-disable-console" (by decide) (by decide)
  have h8 := not_mem_trailing "--windows-disable-console" (by decide) (by decide)
  have hmf2 := Ne.symm hmf
  rw [build_cmd_parts]
  simp only [List.mem_append, List.mem_singleton]
  tauto

/-- With a non-pathological interpreter path and entry path, the macOS
console flag occurs in the assembled command exactly when the console block
produces it. -/
theorem macos_console_mem_iff (c : NuitkaBuildConfig) (platform pyExe : String)
    (isDir : String → Bool)
    (hpy : pyExe ≠ "--macos-disable-console")
    (hmf : c.main_file ≠ "--macos-disable-console") :
    ("--macos-disable-console" ∈ build_cmd c platform pyExe isDir ↔
      "--macos-disable-console" ∈ consoleFlags c platform) := by
  have hb := not_mem_baseline c pyExe "--macos-disable-console"
    (Ne.symm hpy) (by decide) (by decide) (by decide) (by decide)
  have h1 := not_mem_onefile c "--macos-disable-console" (by decide)
  have h3 := not_mem_plugins c "--macos-disable-console" (by decide)
  have h4 := not_mem_data isDir "--macos-disable-console" (by decide)
  have h5 := not_mem_icon c platform "--macos-disable-console" (by decide) (by decide)
  have h6 := not_mem_winmeta c platform "--macos-disable-console"
    (by decide) (by decide) (by decide) (by decide)
  have h7 := not_mem_macbundle c platform "--macos-disable-console" (by decide) (by decide)
  have h8 := not_mem_trailing "--macos-disable-console" (by decide) (by decide)
  have hmf2 := Ne.symm hmf
  rw [build_cmd_parts]
  simp only [List.mem_append, List.mem_singleton]
  tauto

/-- Claim C7: when console output is not requested, the assembled flag list
on the Windows platform string contains the Windows console-disable flag and
not the macOS one, on the macOS platform string the reverse, and on any other
platform neither; the two platform branches are mutually exclusive.  The
interpreter path and entry path are assumed not to be the literal
console-flag strings themselves. -/
theorem C7_console_flag_platforms (c : NuitkaBuildConfig) (pyExe : String)
    (isDir : String → Bool) (hcon : c.console = false)
    (hpy1 : pyExe ≠ "--windows-disable-console") (hpy2 : pyExe ≠ "--macos-disable-console")
    (hmf1 : c.main_file ≠ "--windows-disable-console")
    (hmf2 : c.main_file ≠ "--macos-disable-console") :
    ("--windows-disable-console" ∈ build_cmd c "win32" pyExe isDir ∧
      "--macos-disable-console" ∉ build_cmd c "win32" pyExe isDir) ∧
    ("--macos-disable-console" ∈ build_cmd c "darwin" pyExe isDir ∧
      "--windows-disable-console" ∉ build_cmd c "darwin" pyExe isDir) ∧
    ∀ platform, platform ≠ "win32" → platform ≠ "darwin" →
      "--windows-disable-console" ∉ build_cmd c platform pyExe isDir ∧
      "--macos-disable-console" ∉ build_cmd c platform pyExe isDir := by
  refine ⟨⟨?_, ?_⟩, ⟨?_, ?_⟩, ?_⟩
  · rw [windows_console_mem_iff c "win32" pyExe isDir hpy1 hmf1]
    simp [consoleFlags, hcon]
  · rw [macos_console_mem_iff c "win32" pyExe isDir hpy2 hmf2]
    simp [consoleFlags, hcon]
  · rw [macos_console_mem_iff c "darwin" pyExe isDir hpy2 hmf2]
    simp [consoleFlags, hcon]
  · rw [windows_console_mem_iff c "darwin" pyExe isDir hpy1 hmf1]
    simp [consoleFlags, hcon]
  · intro platform hw hd
    have hce := console_other_empty c platform hw hd
    constructor
    · rw [windows_console_mem_iff c platform pyExe isDir hpy1 hmf1, hce]
      simp
    · rw [macos_console_mem_iff c platform pyExe isDir hpy2 hmf2, hce]
      simp

/-- Claim C7 witness: the properties at a concrete configuration. -/
def sampleConfig : NuitkaBuildConfig :=
  { main_file := "gui.py", app_name := "gui", icon := none, console := false,
    onefile := false, clean := false, framework := "pyqt5",
    output_dir := "dist", build_dir := "build" }

/-- Witness for claim C7 at the sample configuration. -/
theorem C7_console_flag_platforms_witness :
    "--windows-disable-console" ∈ build_cmd sampleConfig "win32" "python" (fun _ => false) ∧
    "--macos-disable-console" ∉ build_cmd sampleConfig "win32" "python" (fun _ => false) :=
  (C7_console_flag_platforms sampleConfig "python" (fun _ => false) rfl
    (by decide) (by decide) (by decide) (by decide)).1

/-- Claim C8: for every resolved configuration, platform, interpreter path
and directory layout, the assembled argument list is exactly the
concatenation of the ten specified blocks in their fixed order: baseline
flags, single-file flag, platform console flag, plugin flags, data-inclusion
flags, platform icon flag, Windows metadata flags, macOS bundle flags,
trailing optimization flags, and the entry-point path as final argument. -/
theorem C8_flag_order (c : NuitkaBuildConfig) (platform pyExe : String) (isDir : String → Bool) :
    build_cmd c platform pyExe isDir =
      baselineFlags c pyExe ++ onefileFlags c ++ consoleFlags c platform ++
      pluginFlags c ++ dataDirFlags isDir ++ iconFlags c platform ++
      winMetaFlags c platform ++ macBundleFlags c platform ++ trailingFlags ++
      [c.main_file] :=
  build_cmd_parts c platform pyExe isDir

/-- The specified framework-detection priority table: identifying substrings
in fixed priority order, each group mapping to a framework identifier. -/
def frameworkTokenTable : List (List String × String) :=
  [(["PySide6", "pyside6"], "pyside6"),
   (["PyQt6"], "pyqt6"),
   (["PyQt5"], "pyqt5"),
   (["customtkinter", "ctk"], "ctk"),
   (["flet"], "flet"),
   (["tkinter"], "tkinter")]

/-- Specified detection: scan the priority table in order, the first entry
one of whose tokens occurs in the content wins; an unreadable file or no
match falls back to the fixed default framework. -/
def specDetectFramework (content : Option String) : String :=
  match content with
  | none => "pyside6"
  | some c =>
    match frameworkTokenTable.find? (fun e => e.1.any (fun t => strContains c t)) with
    | some e => e.2
    | none => "pyside6"

/-- The source's cascade of substring tests agrees with the specified
priority-ordered scan. -/
theorem detect_eq_spec (content : Option String) :
    detect_framework content = specDetectFramework content := by
  cases content with
  | none => rfl
  | some c =>
    simp only [detect_framework, specDetectFramework, frameworkTokenTable, List.find?,
      List.any_cons, List.any_nil, Bool.or_false]
    cases h1 : strContains c "PySide6" <;>
      cases h1b : strContains c "pyside6" <;>
      cases h2 : strContains c "PyQt6" <;>
      cases h3 : strContains c "PyQt5" <;>
      cases h4 : strContains c "customtkinter" <;>
      cases h4b : strContains c "ctk" <;>
      cases h5 : strContains c "flet" <;>
      cases h6 : strContains c "tkinter" <;>
      simp_all

/-- Claim C3: framework detection scans the entry file text for the
framework tokens in the fixed priority order (PySide, PyQt6, PyQt5,
custom-tkinter, Flet, plain tkinter), first match wins — a file with both a
PySide token and a PyQt5 token resolves to PySide — and an unreadable file
or an absence of matches falls back to the fixed default framework. -/
theorem C3_framework_detection :
    (∀ content, detect_framework content = specDetectFramework content) ∧
    detect_framework (some "uses PySide6 widgets and also a PyQt5 token") = "pyside6" ∧
    detect_framework none = "pyside6" ∧
    ∀ c, (∀ t ∈ ["PySide6", "pyside6", "PyQt6", "PyQt5", "customtkinter", "ctk", "flet", "tkinter"],
        strContains c t = false) →
      detect_framework (some c) = "pyside6" := by
  refine ⟨detect_eq_spec, by decide, rfl, ?_⟩
  intro c h
  have h1 := h "PySide6" (by simp)
  have h2 := h "pyside6" (by simp)
  have h3 := h "PyQt6" (by simp)
  have h4 := h "PyQt5" (by simp)
  have h5 := h "customtkinter" (by simp)
  have h6 := h "ctk" (by simp)
  have h7 := h "flet" (by simp)
  have h8 := h "tkinter" (by simp)
  simp [detect_framework, h1, h2, h3, h4, h5, h6, h7, h8]

/-- Witness for claim C3: a content with no framework token resolves to the
default framework. -/
theorem C3_framework_detection_witness :
    detect_framework (some "no gui stuff at all") = "pyside6" :=
  C3_framework_detection.2.2.2 "no gui stuff at all" (by decide)

/-- Claim C2 counterexample: a name explicitly supplied as the empty string
is not used verbatim — Python `or` treats the falsy value as absent, name
detection runs and yields the entry-file stem instead. -/
theorem C2_counterexample :
    resolve_app_name (some "") "app.py" "proj" = "app" ∧ ("app" : String) ≠ "" := by
  decide

/-- Claim C2 (amended): a non-empty explicitly supplied name is used
verbatim (an explicit empty name falls through to detection); with no
explicit name, an entry-file stem differing from the literal string `main`
becomes the application name, and otherwise the working directory's name
does. -/
theorem C2_app_name_resolution (n main_file cwdName : String) (hn : n ≠ "") :
    resolve_app_name (some n) main_file cwdName = n ∧
    (pathStem main_file ≠ "main" → resolve_app_name none main_file cwdName = pathStem main_file) ∧
    (pathStem main_file = "main" → resolve_app_name none main_file cwdName = cwdName) := by
  refine ⟨?_, ?_, ?_⟩
  · simp [resolve_app_name, hn]
  · intro h; simp [resolve_app_name, detect_app_name, h]
  · intro h; simp [resolve_app_name, detect_app_name, h]

/-- Witness for claim C2 at concrete inputs. -/
theorem C2_app_name_resolution_witness :
    resolve_app_name (some "cool") "app.py" "proj" = "cool" ∧
    resolve_app_name none "app.py" "proj" = "app" ∧
    resolve_app_name none "main.py" "proj" = "proj" := by
  have h := C2_app_name_resolution "cool" "app.py" "proj" (by decide)
  have h2 := C2_app_name_resolution "cool" "main.py" "proj" (by decide)
  exact ⟨h.1, (h.2.1 (by decide)).trans (by decide), h2.2.2 (by decide)⟩

/-- Claim C4: every framework identifier absent from the static plugin
table resolves to the empty plugin list; the lookup is total and cannot
fail. -/
theorem C4_unknown_framework (fw : String)
    (h : ∀ p ∈ FRAMEWORK_PLUGINS.map Prod.fst, fw ≠ p) : get_plugins fw = [] := by
  have h1 : fw ≠ "pyside6" := h _ (by simp [FRAMEWORK_PLUGINS])
  have h2 : fw ≠ "pyqt6" := h _ (by simp [FRAMEWORK_PLUGINS])
  have h3 : fw ≠ "pyqt5" := h _ (by simp [FRAMEWORK_PLUGINS])
  have h4 : fw ≠ "qt" := h _ (by simp [FRAMEWORK_PLUGINS])
  have h5 : fw ≠ "ctk" := h _ (by simp [FRAMEWORK_PLUGINS])
  have h6 : fw ≠ "tkinter" := h _ (by simp [FRAMEWORK_PLUGINS])
  have h7 : fw ≠ "flet" := h _ (by simp [FRAMEWORK_PLUGINS])
  have b1 : (fw == "pyside6") = false := beq_eq_false_iff_ne.mpr h1
  have b2 : (fw == "pyqt6") = false := beq_eq_false_iff_ne.mpr h2
  have b3 : (fw == "pyqt5") = false := beq_eq_false_iff_ne.mpr h3
  have b4 : (fw == "qt") = false := beq_eq_false_iff_ne.mpr h4
  have b5 : (fw == "ctk") = false := beq_eq_false_iff_ne.mpr h5
  have b6 : (fw == "tkinter") = false := beq_eq_false_iff_ne.mpr h6
  have b7 : (fw == "flet") = false := beq_eq_false_iff_ne.mpr h7
  simp [get_plugins, FRAMEWORK_PLUGINS, List.lookup, b1, b2, b3, b4, b5, b6, b7]

/-- Witness for claim C4: an unrecognised framework identifier. -/
theorem C4_unknown_framework_witness : get_plugins "wxpython" = [] :=
  C4_unknown_framework "wxpython" (by decide)

/-- Claim C5: data-directory discovery returns exactly the subset of the
fixed candidate list whose members are directories, preserving the fixed
order, and the empty list when none exist. -/
theorem C5_data_dirs (isDir : String → Bool) :
    get_data_dirs isDir = common_dirs.filter isDir ∧
    (∀ d, d ∈ get_data_dirs isDir ↔ d ∈ common_dirs ∧ isDir d = true) ∧
    (get_data_dirs isDir).Sublist common_dirs ∧
    ((∀ d ∈ common_dirs, isDir d = false) → get_data_dirs isDir = []) := by
  have he := get_data_dirs_eq_filter isDir
  refine ⟨he, ?_, ?_, ?_⟩
  · intro d; rw [he]; exact List.mem_filter
  · rw [he]; exact List.filter_sublist _
  · intro h
    rw [he]
    refine List.filter_eq_nil_iff.mpr ?_
    intro a ha
    simp [h a ha]

/-- Witness for claim C5: no candidate is a directory. -/
theorem C5_data_dirs_witness : get_data_dirs (fun _ => false) = [] :=
  (C5_data_dirs (fun _ => false)).2.2.2 (fun _ _ => rfl)

/-- The options of the claim C1 scenario: entry file `app.py`, everything
else left at its default. -/
def c1Args : BuildArgs :=
  { name := none, main := "app.py", icon := none, console := false,
    onefile := false, clean := false, framework := none }

/-- The configuration resolved in the C1 scenario, with working directory
`proj` and an entry file whose text is a tkinter import statement. -/
def c1Config : NuitkaBuildConfig := mkConfig c1Args "proj" (some "import tkinter")

/-- The command assembled in the C1 scenario on the Windows platform string
with no data directories present. -/
def c1Cmd : List String := build_cmd c1Config "win32" "python" (fun _ => false)

/-- Claim C1 counterexample: in the claimed scenario the resolved framework
is `tkinter`, but the static table maps it to the plugin list `["tk-inter"]`
— not to the empty plugin list the claim asserts. -/
theorem C1_counterexample :
    c1Config.framework = "tkinter" ∧ get_plugins c1Config.framework ≠ [] := by
  decide

/-- Claim C1 (amended): in the scenario the resolved framework is tkinter,
which maps to the one-element plugin list `["tk-inter"]`; the application
name is `app`; and the assembled flag list includes the standalone-mode
flag, the output-dir flag, the Windows console-disable flag, the
product-metadata flags carrying the name `app`, the tk-inter plugin-enable
flag, the trailing optimization flags, and `app.py` as the final argument. -/
theorem C1_end_to_end :
    c1Config.framework = "tkinter" ∧
    get_plugins c1Config.framework = ["tk-inter"] ∧
    c1Config.app_name = "app" ∧
    "--standalone" ∈ c1Cmd ∧
    "--output-dir=dist" ∈ c1Cmd ∧
    "--windows-disable-console" ∈ c1Cmd ∧
    "--product-name=app" ∈ c1Cmd ∧
    "--file-description=app" ∈ c1Cmd ∧
    "--file-version=1.0.0.0" ∈ c1Cmd ∧
    "--product-version=1.0.0.0" ∈ c1Cmd ∧
    "--enable-plugin=tk-inter" ∈ c1Cmd ∧
    "--assume-yes-for-downloads" ∈ c1Cmd ∧
    "--remove-output" ∈ c1Cmd ∧
    c1Cmd.getLast? = some "app.py" := by
  decide

/-- Claim C6: when the entry-point file does not exist, the tool exits with
code 1, hands no command to a subprocess, removes nothing, and leaves every
directory's existence unchanged — even when clean is set, because the
existence check precedes the clean step. -/
theorem C6_missing_entry (c : NuitkaBuildConfig) (dirExists isDir : String → Bool)
    (platform pyExe : String) (nuitkaFound : Bool) (childExit : Nat) :
    (run_build c false dirExists isDir platform pyExe nuitkaFound childExit).exitCode = 1 ∧
    (run_build c false dirExists isDir platform pyExe nuitkaFound childExit).invoked = none ∧
    (run_build c false dirExists isDir platform pyExe nuitkaFound childExit).removed = [] ∧
    ∀ d, dirExistsAfter dirExists (run_build c false dirExists isDir platform pyExe nuitkaFound childExit) d = dirExists d := by
  refine ⟨rfl, rfl, rfl, ?_⟩
  intro d
  simp [run_build, dirExistsAfter]

/-- Claim C9: with the entry file present, a child exit status of 0 yields
tool exit code 0 and a success message; a nonzero child exit status is
propagated verbatim with a failure message; a missing compiler executable
yields exit code 1 and an installation hint. -/
theorem C9_outcomes (c : NuitkaBuildConfig) (dirExists isDir : String → Bool)
    (platform pyExe : String) (childExit : Nat) :
    ((run_build c true dirExists isDir platform pyExe true 0).exitCode = 0 ∧
      "Build successful! Output in \x27" ++ c.output_dir ++ "\x27" ∈
        (run_build c true dirExists isDir platform pyExe true 0).messages) ∧
    (childExit ≠ 0 →
      (run_build c true dirExists isDir platform pyExe true childExit).exitCode = childExit ∧
      "Build failed with exit code " ++ toString childExit ∈
        (run_build c true dirExists isDir platform pyExe true childExit).messages) ∧
    ((run_build c true dirExists isDir platform pyExe false childExit).exitCode = 1 ∧
      "Nuitka not found! Install with: pip install nuitka" ∈
        (run_build c true dirExists isDir platform pyExe false childExit).messages) := by
  refine ⟨⟨?_, ?_⟩, ?_, ⟨?_, ?_⟩⟩
  · simp [run_build]
  · simp [run_build]
  · intro h
    constructor
    · simp [run_build, h]
    · simp [run_build, h]
  · simp [run_build]
  · simp [run_build]

/-- Witness for claim C9: a nonzero child exit status is propagated. -/
theorem C9_outcomes_witness :
    (run_build sampleConfig true (fun _ => false) (fun _ => false) "linux" "python" true 3).exitCode = 3 :=
  ((C9_outcomes sampleConfig (fun _ => false) (fun _ => false) "linux" "python" 3).2.1 (by decide)).1

/-- Claim C10: with clean requested and the entry file present, after the
clean step neither the output directory nor the intermediate build
directory exists, whether or not each existed before (absence is not an
error). -/
theorem C10_clean_removes (c : NuitkaBuildConfig) (dirExists isDir : String → Bool)
    (platform pyExe : String) (nuitkaFound : Bool) (childExit : Nat)
    (hclean : c.clean = true) :
    dirExistsAfter dirExists (run_build c true dirExists isDir platform pyExe nuitkaFound childExit) c.output_dir = false ∧
    dirExistsAfter dirExists (run_build c true dirExists isDir platform pyExe nuitkaFound childExit) c.build_dir = false := by
  have hrem : (run_build c true dirExists isDir platform pyExe nuitkaFound childExit).removed
      = [c.output_dir, c.build_dir].filter (fun d => dirExists d) := by
    simp [run_build, hclean]
  constructor
  · unfold dirExistsAfter
    rw [hrem]
    cases h : dirExists c.output_dir
    · simp
    · simp [List.filter_cons, h]
  · unfold dirExistsAfter
    rw [hrem]
    cases h : dirExists c.build_dir
    · simp
    · cases h2 : dirExists c.output_dir <;> simp [List.filter_cons, h, h2]

/-- A sample configuration with the clean option set. -/
def cleanSampleConfig : NuitkaBuildConfig :=
  { sampleConfig with clean := true }

/-- Witness for claim C10 at the clean sample configuration. -/
theorem C10_clean_removes_witness :
    dirExistsAfter (fun _ => true)
      (run_build cleanSampleConfig true (fun _ => true) (fun _ => false) "linux" "python" true 0)
      cleanSampleConfig.output_dir = false :=
  (C10_clean_removes cleanSampleConfig (fun _ => true) (fun _ => false) "linux" "python" true 0 rfl).1
